import Mathlib

/-!
Shallow embedding of the core logic of `src/main.js` (SerialMonitorPro):
the bounded receive buffer of the read loop, the plausibility predicate of
the baud-rate prober, the prober's candidate iteration, the connection
registry operations, the data-rate estimator and the stats aggregator.
Each definition is translated directly from the named JS function.
-/

namespace WebUart

/-! ## Read-loop buffer (`startReadingPort`, src/main.js lines 458-492)

The read loop keeps `buffer` (a JS array of bytes), appends each received
chunk with `buffer.push(...value)` and then trims with
`buffer.splice(0, buffer.length - this.maxBufferLength)` whenever
`buffer.length > this.maxBufferLength`.  `splice(0, k)` removes the first
`k` elements, i.e. drops the oldest bytes. -/

/-- `this.maxBufferLength = 10000` (src/main.js line 27). -/
def maxBufferLength : Nat := 10000

/-- The last `n` bytes of `l` (the suffix kept by the eviction policy). -/
def lastN (n : Nat) (l : List Nat) : List Nat :=
  l.drop (l.length - n)

/-- One iteration of the receive path of `startReadingPort`:
`buffer.push(...value)` followed by
`if (buffer.length > maxBufferLength) buffer.splice(0, buffer.length - maxBufferLength)`. -/
def appendChunk (maxLen : Nat) (buf chunk : List Nat) : List Nat :=
  if maxLen < (buf ++ chunk).length then
    (buf ++ chunk).drop ((buf ++ chunk).length - maxLen)
  else buf ++ chunk

/-- The buffer produced by the read loop after receiving `chunks` in order,
starting from the empty buffer installed by `connectPort`
(`this.dataBuffer.set(port, [])`). -/
def readLoopBuffer (chunks : List (List Nat)) : List Nat :=
  chunks.foldl (appendChunk maxBufferLength) []

/-! ## Plausibility predicate (`isLikelyValidData`, src/main.js lines 317-324)

`visible` counts bytes `b` with `32 <= b && b <= 126`; the sample is
accepted when `visible >= Math.max(2, data.length / 3)` (JS floating-point
division; exact on the rationals for the integer inputs involved). -/

/-- The `visible` counter of `isLikelyValidData`. -/
def countVisible (data : List Nat) : Nat :=
  (data.filter (fun b => decide (32 ≤ b ∧ b ≤ 126))).length

/-- `isLikelyValidData(data)`: `visible >= Math.max(2, data.length / 3)`. -/
def isLikelyValidData (data : List Nat) : Bool :=
  decide (max 2 ((data.length : ℚ) / 3) ≤ (countVisible data : ℚ))

/-! ## Baud-rate prober (src/main.js lines 7-14, 260-304)

`autoDetectBaudRate` first walks `COMMON_BAUD_RATES_PRIOR` with
`_tryBaudList`, and only if that yields no baud walks
`COMMON_BAUD_RATES_EXTRA`.  For each candidate, `_tryBaudList` opens the
port (8N1, no flow control), performs up to 3 reads each raced against a
200ms timer, accepts the first non-empty sample passing
`isLikelyValidData`, releases the reader and closes the port; any thrown
error (open rejection or read failure) is caught, a close is attempted,
and the next candidate is tried.  The external serial port is modelled by
`PortModel`: whether `port.open` resolves at a given baud, and the outcome
of each raced read (a timeout yields `{value: null, done: true}`). -/

/-- `SerialMonitorPro.COMMON_BAUD_RATES_PRIOR` (src/main.js lines 8-10). -/
def COMMON_BAUD_RATES_PRIOR : List Nat :=
  [115200, 9600, 57600, 38400, 19200, 4800, 2400, 1200,
   230400, 460800, 921600, 256000, 128000, 76800, 14400, 31250]

/-- `SerialMonitorPro.COMMON_BAUD_RATES_EXTRA` (src/main.js lines 12-14). -/
def COMMON_BAUD_RATES_EXTRA : List Nat :=
  [3000000, 2000000, 1500000, 1000000, 7200, 1800, 600, 300]

/-- Outcome of one `Promise.race([reader.read(), 200ms timer])` inside
`_tryBaudList`: the timer wins (`{value: null, done: true}`), the read
yields bytes, or the read rejects (thrown error). -/
inductive ReadOutcome where
  | timeout : ReadOutcome
  | data : List Nat → ReadOutcome
  | err : ReadOutcome
deriving DecidableEq

/-- Model of the external serial port as seen by the prober: whether
`port.open({baudRate, ...})` resolves for a given baud, and the outcome of
the raced read attempt `i` at that baud. -/
structure PortModel where
  openOk : Nat → Bool
  read : Nat → Nat → ReadOutcome

/-- The `for (let i = 0; i < 3; i++)` read loop of `_tryBaudList`, started
at attempt `i` with `k` attempts remaining.  A sample is accepted when
`value && value.length > 0 && this.isLikelyValidData(value)`; a rejected
read throws out of the loop (`Except.error`), a timeout just moves on to
the next attempt. -/
def tryReads (read : Nat → ReadOutcome) : Nat → Nat → Except Unit (Option (List Nat))
  | _, 0 => Except.ok none
  | i, k + 1 =>
    match read i with
    | ReadOutcome.err => Except.error ()
    | ReadOutcome.timeout => tryReads read (i + 1) k
    | ReadOutcome.data v =>
      if decide (0 < v.length) && isLikelyValidData v then Except.ok (some v)
      else tryReads read (i + 1) k

/-- One candidate of the `for (const baudRate of baudList)` loop of
`_tryBaudList`: `some sample` when this candidate returns
`{baud: baudRate, sample}`, `none` when the loop moves to the next
candidate (open rejected, read threw, or no plausible sample in 3 reads). -/
def tryCandidate (m : PortModel) (baud : Nat) : Option (List Nat) :=
  if m.openOk baud then
    match tryReads (m.read baud) 0 3 with
    | Except.ok (some v) => some v
    | _ => none
  else none

/-- `_tryBaudList(port, baudList)` (src/main.js lines 269-304): `none`
models the `{baud: null, sample: null}` result. -/
def tryBaudList (m : PortModel) : List Nat → Option (Nat × List Nat)
  | [] => none
  | b :: rest =>
    match tryCandidate m b with
    | some s => some (b, s)
    | none => tryBaudList m rest

/-- `autoDetectBaudRate(port)` (src/main.js lines 260-267). -/
def autoDetectBaudRate (m : PortModel) : Option (Nat × List Nat) :=
  match tryBaudList m COMMON_BAUD_RATES_PRIOR with
  | some r => some r
  | none => tryBaudList m COMMON_BAUD_RATES_EXTRA

/-- Port open/close events performed by the prober, in order.
`openPort b ok` is the `port.open` call at baud `b` with its outcome;
`closePort` is a `port.close()` attempt (issued both on the normal path
and in the `catch` handler). -/
inductive Ev where
  | openPort : Nat → Bool → Ev
  | closePort : Ev
deriving DecidableEq

/-- The open/close events of one candidate iteration of `_tryBaudList`:
the open attempt, then always a close attempt (line 295 on the normal
path, line 300 in the catch handler). -/
def candidateTrace (m : PortModel) (baud : Nat) : List Ev :=
  [Ev.openPort baud (m.openOk baud), Ev.closePort]

/-- `_tryBaudList` together with the open/close events it performs. -/
def tryBaudListTr (m : PortModel) : List Nat → Option (Nat × List Nat) × List Ev
  | [] => (none, [])
  | b :: rest =>
    match tryCandidate m b with
    | some s => (some (b, s), candidateTrace m b)
    | none =>
      ((tryBaudListTr m rest).1, candidateTrace m b ++ (tryBaudListTr m rest).2)

/-- Whether the port is open after a sequence of open/close events,
starting closed: a successful open leaves it open, a failed open leaves it
closed, a close attempt leaves it closed. -/
def portOpenAfter (t : List Ev) : Bool :=
  t.foldl
    (fun _ e =>
      match e with
      | Ev.openPort _ ok => ok
      | Ev.closePort => false)
    false

/-! ## Lemmas about the buffer -/

theorem appendChunk_eq_lastN (m : Nat) (buf chunk : List Nat) :
    appendChunk m buf chunk = lastN m (buf ++ chunk) := by
  unfold appendChunk lastN
  split
  · rfl
  · rename_i h
    rw [show (buf ++ chunk).length - m = 0 by omega, List.drop_zero]

theorem lastN_length_le (m : Nat) (l : List Nat) : (lastN m l).length ≤ m := by
  unfold lastN
  simp only [List.length_drop]
  omega

theorem lastN_drop (m j : Nat) (l : List Nat) (hj : j ≤ l.length - m) :
    lastN m (l.drop j) = lastN m l := by
  unfold lastN
  rw [List.drop_drop]
  congr 1
  simp only [List.length_drop]
  omega

theorem lastN_append_left (m : Nat) (acc chunk : List Nat) :
    lastN m (lastN m acc ++ chunk) = lastN m (acc ++ chunk) := by
  have hle : acc.length - m ≤ acc.length := Nat.sub_le _ _
  have h1 : lastN m acc ++ chunk = (acc ++ chunk).drop (acc.length - m) := by
    unfold lastN
    rw [List.drop_append_of_le_length hle]
  rw [h1]
  apply lastN_drop
  simp only [List.length_append]
  omega

theorem foldl_appendChunk (m : Nat) (chunks : List (List Nat)) :
    ∀ acc : List Nat,
      chunks.foldl (appendChunk m) (lastN m acc) = lastN m (acc ++ chunks.flatten) := by
  induction chunks with
  | nil => intro acc; simp
  | cons c cs ih =>
    intro acc
    simp only [List.foldl_cons, List.flatten_cons]
    rw [appendChunk_eq_lastN, lastN_append_left, ← List.append_assoc]
    exact ih (acc ++ c)

/-- Claim C1: for every sequence of byte chunks appended by the read loop,
after each append the buffer's length never exceeds `maxBufferLength`
(10000), and the buffer's contents equal the last `maxBufferLength` bytes
of the concatenation of all appended chunks in arrival order (oldest bytes
evicted first, never the newest). -/
theorem C1_read_loop_buffer_bounded_oldest_evicted :
    ∀ chunks : List (List Nat),
      (readLoopBuffer chunks).length ≤ maxBufferLength ∧
      readLoopBuffer chunks = lastN maxBufferLength chunks.flatten := by
  intro chunks
  have hempty : ([] : List Nat) = lastN maxBufferLength [] := rfl
  have h : readLoopBuffer chunks = lastN maxBufferLength chunks.flatten := by
    unfold readLoopBuffer
    rw [hempty, foldl_appendChunk]
    simp
  exact ⟨h ▸ lastN_length_le _ _, h⟩

/-! ## Lemmas about the plausibility predicate -/

/-- Integer characterization of the rational comparison
`Math.max(2, data.length / 3) <= visible`. -/
theorem isLikelyValidData_iff (data : List Nat) :
    isLikelyValidData data = true ↔
      2 ≤ countVisible data ∧ data.length ≤ 3 * countVisible data := by
  unfold isLikelyValidData
  rw [decide_eq_true_iff, max_le_iff]
  constructor
  · rintro ⟨h2, h3⟩
    have h2n : (2 : ℕ) ≤ countVisible data := by exact_mod_cast h2
    have h3n : (data.length : ℚ) ≤ (countVisible data : ℚ) * 3 := by
      rwa [div_le_iff₀ (by norm_num : (0:ℚ) < 3)] at h3
    have : data.length ≤ countVisible data * 3 := by exact_mod_cast h3n
    exact ⟨h2n, by omega⟩
  · rintro ⟨h2, h3⟩
    constructor
    · exact_mod_cast h2
    · rw [div_le_iff₀ (by norm_num : (0:ℚ) < 3)]
      have : data.length ≤ countVisible data * 3 := by omega
      exact_mod_cast this

/-- Claim C2: `isLikelyValidData` accepts a byte sequence iff the count of
bytes in the printable range `[32,126]` is at least `max 2 (length / 3)`
(equivalently: at least 2 and at least a third of the length); a 9-byte
sample with exactly 3 printable bytes is plausible, and one with exactly 2
printable bytes is not. -/
theorem C2_isLikelyValidData_characterization :
    (∀ data : List Nat,
        isLikelyValidData data = true ↔
          2 ≤ countVisible data ∧ data.length ≤ 3 * countVisible data) ∧
    isLikelyValidData [65, 66, 67, 0, 0, 0, 0, 0, 0] = true ∧
    isLikelyValidData [65, 66, 0, 0, 0, 0, 0, 0, 0] = false := by
  refine ⟨isLikelyValidData_iff, ?_, ?_⟩
  · rw [isLikelyValidData_iff]
    decide
  · rw [Bool.eq_false_iff]
    intro hc
    rw [isLikelyValidData_iff] at hc
    revert hc
    decide

/-! ## Lemmas about the prober -/

theorem tryBaudList_append (m : PortModel) (l1 l2 : List Nat) :
    tryBaudList m (l1 ++ l2) =
      match tryBaudList m l1 with
      | some r => some r
      | none => tryBaudList m l2 := by
  induction l1 with
  | nil => simp [tryBaudList]
  | cons b rest ih =>
    simp only [List.cons_append, tryBaudList]
    cases tryCandidate m b <;> simp [ih]

theorem tryBaudList_eq_none_iff (m : PortModel) (l : List Nat) :
    tryBaudList m l = none ↔ ∀ b ∈ l, tryCandidate m b = none := by
  induction l with
  | nil => simp [tryBaudList]
  | cons a rest ih =>
    simp only [tryBaudList]
    cases ha : tryCandidate m a with
    | some s => simp [ha]
    | none => simp [ha, ih]

theorem tryBaudList_eq_some_iff (m : PortModel) (l : List Nat) (b : Nat)
    (s : List Nat) :
    tryBaudList m l = some (b, s) ↔
      ∃ l1 l2, l = l1 ++ b :: l2 ∧ (∀ x ∈ l1, tryCandidate m x = none) ∧
        tryCandidate m b = some s := by
  induction l with
  | nil => simp [tryBaudList]
  | cons a rest ih =>
    simp only [tryBaudList]
    cases ha : tryCandidate m a with
    | some s0 =>
      simp only [Option.some.injEq, Prod.mk.injEq]
      constructor
      · rintro ⟨rfl, rfl⟩
        exact ⟨[], rest, rfl, by simp, ha⟩
      · rintro ⟨l1, l2, heq, hnone, hb⟩
        cases l1 with
        | nil =>
          simp only [List.nil_append, List.cons.injEq] at heq
          obtain ⟨rfl, rfl⟩ := heq
          rw [ha] at hb
          exact ⟨rfl, Option.some.inj hb⟩
        | cons y l1t =>
          simp only [List.cons_append, List.cons.injEq] at heq
          obtain ⟨rfl, -⟩ := heq
          have := hnone a (by simp)
          rw [ha] at this
          exact absurd this (by simp)
    | none =>
      rw [ih]
      constructor
      · rintro ⟨l1, l2, heq, hnone, hb⟩
        refine ⟨a :: l1, l2, by simp [heq], ?_, hb⟩
        intro x hx
        rcases List.mem_cons.mp hx with rfl | hx2
        · exact ha
        · exact hnone x hx2
      · rintro ⟨l1, l2, heq, hnone, hb⟩
        cases l1 with
        | nil =>
          simp only [List.nil_append, List.cons.injEq] at heq
          obtain ⟨rfl, -⟩ := heq
          rw [ha] at hb
          exact absurd hb (by simp)
        | cons y l1t =>
          simp only [List.cons_append, List.cons.injEq] at heq
          obtain ⟨rfl, hrest⟩ := heq
          exact ⟨l1t, l2, hrest, fun x hx => hnone x (by simp [hx]), hb⟩

theorem tryReads_congr (r r2 : Nat → ReadOutcome) :
    ∀ (k i : Nat), (∀ j, j < k → r (i + j) = r2 (i + j)) →
      tryReads r i k = tryReads r2 i k := by
  intro k
  induction k with
  | zero => intro i _; rfl
  | succ k ih =>
    intro i h
    have h0 : r i = r2 i := h 0 (Nat.succ_pos k)
    have hshift : ∀ j, j < k → r (i + 1 + j) = r2 (i + 1 + j) := by
      intro j hj
      have := h (j + 1) (by omega)
      rwa [show i + (j + 1) = i + 1 + j by omega] at this
    simp only [tryReads, ← h0]
    cases r i with
    | err => rfl
    | timeout => exact ih (i + 1) hshift
    | data v =>
      cases hv : decide (0 < v.length) && isLikelyValidData v with
      | true => simp [hv]
      | false => simp [hv, ih (i + 1) hshift]

/-- Claim C3: `autoDetectBaudRate` tries the tier-1 candidates in their
exact listed order followed by the tier-2 candidates in their exact listed
order (tier 1 exhausted before any tier-2 candidate), returns the first
candidate yielding a plausible sample together with that sample and stops
there, and returns the null result iff no candidate in either tier yields
a plausible sample. -/
theorem C3_autoDetectBaudRate_first_match :
    (COMMON_BAUD_RATES_PRIOR =
        [115200, 9600, 57600, 38400, 19200, 4800, 2400, 1200,
         230400, 460800, 921600, 256000, 128000, 76800, 14400, 31250] ∧
      COMMON_BAUD_RATES_EXTRA =
        [3000000, 2000000, 1500000, 1000000, 7200, 1800, 600, 300]) ∧
    (∀ m : PortModel,
        autoDetectBaudRate m =
          tryBaudList m (COMMON_BAUD_RATES_PRIOR ++ COMMON_BAUD_RATES_EXTRA)) ∧
    (∀ (m : PortModel) (l : List Nat) (b : Nat) (s : List Nat),
        tryBaudList m l = some (b, s) ↔
          ∃ l1 l2, l = l1 ++ b :: l2 ∧ (∀ x ∈ l1, tryCandidate m x = none) ∧
            tryCandidate m b = some s) ∧
    (∀ m : PortModel,
        autoDetectBaudRate m = none ↔
          ∀ b ∈ COMMON_BAUD_RATES_PRIOR ++ COMMON_BAUD_RATES_EXTRA,
            tryCandidate m b = none) := by
  have hsplit : ∀ m : PortModel,
      autoDetectBaudRate m =
        tryBaudList m (COMMON_BAUD_RATES_PRIOR ++ COMMON_BAUD_RATES_EXTRA) := by
    intro m
    rw [tryBaudList_append]
    rfl
  refine ⟨⟨rfl, rfl⟩, hsplit, tryBaudList_eq_some_iff, ?_⟩
  intro m
  rw [hsplit, tryBaudList_eq_none_iff]

/-- Claim C4: per candidate the prober performs at most 3 reads (its result
depends only on the outcomes of reads 0, 1, 2 at that baud); a timed-out
read yields no bytes and does not abort the candidate (later attempts are
still made); the first plausible sample short-circuits the remaining
attempts (the result is that sample whatever the later reads would
return); three timeouts leave the candidate without a sample. -/
theorem C4_candidate_reads :
    (∀ (m m2 : PortModel) (b : Nat),
        m.openOk b = m2.openOk b →
        (∀ i, i < 3 → m.read b i = m2.read b i) →
        tryCandidate m b = tryCandidate m2 b) ∧
    (∀ (m : PortModel) (b : Nat) (v : List Nat),
        m.openOk b = true →
        m.read b 0 = ReadOutcome.data v →
        0 < v.length → isLikelyValidData v = true →
        tryCandidate m b = some v) ∧
    (∀ (m : PortModel) (b : Nat) (v : List Nat),
        m.openOk b = true →
        m.read b 0 = ReadOutcome.timeout →
        m.read b 1 = ReadOutcome.data v →
        0 < v.length → isLikelyValidData v = true →
        tryCandidate m b = some v) ∧
    (∀ (m : PortModel) (b : Nat),
        m.openOk b = true →
        (∀ i, i < 3 → m.read b i = ReadOutcome.timeout) →
        tryCandidate m b = none) := by
  refine ⟨?_, ?_, ?_, ?_⟩
  · intro m m2 b hopen hreads
    unfold tryCandidate
    rw [hopen, tryReads_congr (m.read b) (m2.read b) 3 0 (by simpa using hreads)]
  · intro m b v hopen h0 hlen hvalid
    simp [tryCandidate, hopen, tryReads, h0, hlen, hvalid]
  · intro m b v hopen h0 h1 hlen hvalid
    simp [tryCandidate, hopen, tryReads, h0, h1, hlen, hvalid]
  · intro m b hopen hto
    simp [tryCandidate, hopen, tryReads,
      hto 0 (by omega), hto 1 (by omega), hto 2 (by omega)]

theorem portOpenAfter_cons_close (e : Ev) (t : List Ev) :
    portOpenAfter (e :: Ev.closePort :: t) = portOpenAfter t := rfl

/-- Claim C5: the traced prober agrees with the untraced one; at the moment
of every `port.open` attempt in the probe's event trace the port is closed
(each candidate closes the port before the next candidate is tried); the
whole probe ends with the port closed; and a candidate whose open fails is
simply skipped (the probe continues with the remaining candidates instead
of aborting). -/
theorem C5_close_between_candidates :
    (∀ (m : PortModel) (l : List Nat),
        (tryBaudListTr m l).1 = tryBaudList m l) ∧
    (∀ (m : PortModel) (l : List Nat) (pre suf : List Ev) (b : Nat) (ok : Bool),
        (tryBaudListTr m l).2 = pre ++ Ev.openPort b ok :: suf →
        portOpenAfter pre = false) ∧
    (∀ (m : PortModel) (l : List Nat),
        portOpenAfter (tryBaudListTr m l).2 = false) ∧
    (∀ (m : PortModel) (b : Nat) (rest : List Nat),
        m.openOk b = false →
        tryBaudList m (b :: rest) = tryBaudList m rest) := by
  refine ⟨?_, ?_, ?_, ?_⟩
  · intro m l
    induction l with
    | nil => rfl
    | cons a rest ih =>
      simp only [tryBaudListTr, tryBaudList]
      cases tryCandidate m a <;> simp [ih]
  · intro m l
    induction l with
    | nil =>
      intro pre suf b ok h
      simp only [tryBaudListTr] at h
      exact absurd h.symm (List.append_ne_nil_of_right_ne_nil pre (by simp))
    | cons a rest ih =>
      intro pre suf b ok h
      have hshape : (tryBaudListTr m (a :: rest)).2 =
          Ev.openPort a (m.openOk a) :: Ev.closePort ::
            (match tryCandidate m a with
             | some _ => []
             | none => (tryBaudListTr m rest).2) := by
        simp only [tryBaudListTr]
        cases tryCandidate m a <;> simp [candidateTrace]
      rw [hshape] at h
      cases pre with
      | nil => rfl
      | cons e1 pre1 =>
        cases pre1 with
        | nil =>
          simp only [List.cons_append, List.nil_append, List.cons.injEq] at h
          exact absurd h.2.1 (by simp)
        | cons e2 pre2 =>
          simp only [List.cons_append, List.cons.injEq] at h
          obtain ⟨-, he2, hrest⟩ := h
          rw [← he2, portOpenAfter_cons_close]
          cases hc : tryCandidate m a with
          | some s =>
            rw [hc] at hrest
            simp only at hrest
            exact absurd hrest.symm
              (List.append_ne_nil_of_right_ne_nil pre2 (by simp))
          | none =>
            rw [hc] at hrest
            simp only at hrest
            exact ih pre2 suf b ok hrest
  · intro m l
    induction l with
    | nil => rfl
    | cons a rest ih =>
      simp only [tryBaudListTr]
      cases tryCandidate m a with
      | some s => rfl
      | none => simpa [candidateTrace, portOpenAfter_cons_close] using ih
  · intro m b rest h
    have hc : tryCandidate m b = none := by
      simp [tryCandidate, h]
    simp [tryBaudList, hc]

/-- A port model that accepts every open, times out on the first read of
every candidate and then delivers the printable bytes `"Hel"`. -/
def probeModelA : PortModel where
  openOk := fun _ => true
  read := fun _ i => if i = 0 then ReadOutcome.timeout else ReadOutcome.data [72, 101, 108]

/-- `probeModelA` with a different outcome at read index 3 and beyond —
indistinguishable from `probeModelA` through at most 3 reads. -/
def probeModelB : PortModel where
  openOk := fun _ => true
  read := fun b i => if i ≤ 2 then probeModelA.read b i else ReadOutcome.err

/-- A port model that answers every read immediately with `"Hel"`. -/
def probeModelFast : PortModel where
  openOk := fun _ => true
  read := fun _ _ => ReadOutcome.data [72, 101, 108]

/-- A port model on which every read times out. -/
def probeModelSilent : PortModel where
  openOk := fun _ => true
  read := fun _ _ => ReadOutcome.timeout

/-- A port model on which every open attempt is rejected. -/
def probeModelClosed : PortModel where
  openOk := fun _ => false
  read := fun _ _ => ReadOutcome.timeout

theorem C4_candidate_reads_witness :
    tryCandidate probeModelA 9600 = tryCandidate probeModelB 9600 ∧
    tryCandidate probeModelFast 115200 = some [72, 101, 108] ∧
    tryCandidate probeModelA 9600 = some [72, 101, 108] ∧
    tryCandidate probeModelSilent 9600 = none := by
  refine ⟨?_, ?_, ?_, ?_⟩
  · exact C4_candidate_reads.1 probeModelA probeModelB 9600 rfl (by decide)
  · exact C4_candidate_reads.2.1 probeModelFast 115200 [72, 101, 108] rfl rfl
      (by decide) ((isLikelyValidData_iff _).mpr (by decide))
  · exact C4_candidate_reads.2.2.1 probeModelA 9600 [72, 101, 108] rfl rfl rfl
      (by decide) ((isLikelyValidData_iff _).mpr (by decide))
  · exact C4_candidate_reads.2.2.2 probeModelSilent 9600 rfl (by decide)

theorem C5_close_between_candidates_witness :
    (tryBaudListTr probeModelClosed [115200, 9600]).1 =
      tryBaudList probeModelClosed [115200, 9600] ∧
    portOpenAfter [Ev.openPort 115200 false, Ev.closePort] = false ∧
    portOpenAfter (tryBaudListTr probeModelClosed [115200, 9600]).2 = false ∧
    tryBaudList probeModelClosed (115200 :: [9600]) =
      tryBaudList probeModelClosed [9600] := by
  refine ⟨?_, ?_, ?_, ?_⟩
  · exact C5_close_between_candidates.1 probeModelClosed [115200, 9600]
  · exact C5_close_between_candidates.2.1 probeModelClosed [115200, 9600]
      [Ev.openPort 115200 false, Ev.closePort] [Ev.closePort] 9600 false rfl
  · exact C5_close_between_candidates.2.2.1 probeModelClosed [115200, 9600]
  · exact C5_close_between_candidates.2.2.2 probeModelClosed 115200 [9600] rfl

/-! ## Connection registry (`connectPort` / `disconnectPort`,
src/main.js lines 367-418)

Ports are identified by `Nat`.  The registry state holds the JS fields
`activeConnections` (a `Set`), `dataBuffer` (a `Map` from port to byte
array), `readers` (a `Map` from port to its reader, modelled as the set of
ports having a reader), plus `osOpen`: the set of ports whose underlying
`SerialPort` is in the `"opened"` state.  Per the Web Serial API,
`port.open()` rejects when the port is already opened and
`port.close()` rejects when the port is not opened; both are modelled
through `osOpen`.  `extOpenOk` stands for the other open failures
(permission, device busy, invalid parameters).  The `ports` metadata map
(display info only) is not modelled. -/

/-- The kind of toast emitted by `showNotification`. -/
inductive NotifKind where
  | success : NotifKind
  | error : NotifKind
  | warning : NotifKind
  | info : NotifKind
deriving DecidableEq

/-- The mutable fields of `SerialMonitorPro` touched by
`connectPort` / `disconnectPort`, plus the OS-level open set. -/
structure RegistryState where
  activeConnections : Finset Nat
  dataBuffer : Nat → Option (List Nat)
  readers : Finset Nat
  osOpen : Finset Nat

/-- `connectPort(port)` (src/main.js lines 367-397): `port.open` with the
quick-config parameters; on success the port is added to
`activeConnections`, its buffer is set to `[]`, and `startReadingPort`
registers a reader; on a rejected open the catch handler reports the error
and returns `false` with nothing changed. -/
def connectPort (s : RegistryState) (p : Nat) (extOpenOk : Bool) :
    RegistryState × Bool :=
  if p ∈ s.osOpen then
    (s, false)
  else if extOpenOk then
    ({ activeConnections := insert p s.activeConnections,
       dataBuffer := fun q => if q = p then some [] else s.dataBuffer q,
       readers := insert p s.readers,
       osOpen := insert p s.osOpen }, true)
  else
    (s, false)

/-- `disconnectPort(port)` (src/main.js lines 399-418): cancel and drop the
reader if present, then `await port.close()`; when the close resolves the
port is removed from `activeConnections` and `dataBuffer` and an info
toast is shown; when the close rejects (port not opened) the catch handler
shows an error toast and the remaining deletions are skipped. -/
def disconnectPort (s : RegistryState) (p : Nat) : RegistryState × NotifKind :=
  if p ∈ s.osOpen then
    ({ activeConnections := (s.activeConnections).erase p,
       dataBuffer := fun q => if q = p then none else s.dataBuffer q,
       readers := (s.readers).erase p,
       osOpen := (s.osOpen).erase p }, NotifKind.info)
  else
    ({ s with readers := (s.readers).erase p }, NotifKind.error)

/-! ## Rate estimator (`calculateDataRate`, src/main.js lines 640-660)

`timeDiff = (now - lastUpdateTime) / 1000`; when `timeDiff > 0` the rate
is `totalData / timeDiff` and the counter and timestamp are reset;
otherwise the previously stored `dataRate` is returned with no state
change.  JS numbers are modelled as rationals. -/

/-- The fields of `SerialMonitorPro` used by `calculateDataRate`. -/
structure RateState where
  dataRate : ℚ
  totalData : ℚ
  lastUpdateTime : ℚ

/-- `calculateDataRate()` at wall-clock time `now` (milliseconds): the new
state and the returned rate. -/
def calculateDataRate (s : RateState) (now : ℚ) : RateState × ℚ :=
  if 0 < (now - s.lastUpdateTime) / 1000 then
    ({ dataRate := s.totalData / ((now - s.lastUpdateTime) / 1000),
       totalData := 0,
       lastUpdateTime := now },
     s.totalData / ((now - s.lastUpdateTime) / 1000))
  else
    (s, s.dataRate)

/-! ## Stats aggregator (`updateStats`, src/main.js lines 662-675)

Displays `activeConnections.size` and, when
`totalOperations = activeConnections.size + errorCount` is positive,
`errorCount / totalOperations * 100` as the error-rate percentage,
otherwise `0`.  (The `toFixed(1)` string formatting of the percentage is
not modelled.) -/

/-- The fields of `SerialMonitorPro` used by `updateStats`. -/
structure StatsState where
  activeConnections : Finset Nat
  errorCount : Nat

/-- `updateStats()`: the displayed active-connection count and error-rate
percentage. -/
def updateStats (s : StatsState) : Nat × ℚ :=
  (s.activeConnections.card,
   if 0 < s.activeConnections.card + s.errorCount then
     (s.errorCount : ℚ) / ((s.activeConnections.card + s.errorCount : ℕ) : ℚ) * 100
   else 0)

/-! ## Registry theorems -/

/-- Counterexample to claim C6 as stated: in the state with no active
connection, no reader and no OS-open port, disconnecting port `0` — a port
that is not open — reports an error toast (`'断开串口失败: ...'`), because
`port.close()` rejects for a port that is not opened; it does not report
success. -/
theorem C6_disconnect_not_open_reports_error :
    (0 ∉ (RegistryState.mk ∅ (fun _ => none) ∅ ∅).activeConnections) ∧
    (disconnectPort (RegistryState.mk ∅ (fun _ => none) ∅ ∅) 0).2 =
      NotifKind.error := by
  exact ⟨by decide, rfl⟩

/-- Claim C6 amended: disconnecting a port that is not open (not in the
active set, no registered reader, not OS-open) leaves the registry state
entirely unchanged, but — because the underlying `port.close()` rejects
for a non-opened port — it reports an error toast rather than success. -/
theorem C6_disconnect_not_open_noop :
    ∀ (s : RegistryState) (p : Nat),
      p ∉ s.activeConnections → p ∉ s.readers → p ∉ s.osOpen →
      disconnectPort s p = (s, NotifKind.error) := by
  intro s p hactive hreader hos
  unfold disconnectPort
  rw [if_neg hos, Finset.erase_eq_of_not_mem hreader]

theorem C6_disconnect_not_open_noop_witness :
    disconnectPort (RegistryState.mk ∅ (fun _ => none) ∅ {3}) 0 =
      (RegistryState.mk ∅ (fun _ => none) ∅ {3}, NotifKind.error) :=
  C6_disconnect_not_open_noop (RegistryState.mk ∅ (fun _ => none) ∅ {3}) 0
    (by decide) (by decide) (by decide)

/-- Claim C7: connecting a port that is already open fails — `port.open`
rejects, `connectPort` returns `false` — and alters nothing: the port
stays in the active set, its buffer is neither replaced nor cleared, and
its reader (read loop) is untouched. -/
theorem C7_connect_already_open_fails :
    ∀ (s : RegistryState) (p : Nat) (extOpenOk : Bool),
      p ∈ s.activeConnections → p ∈ s.osOpen →
      connectPort s p extOpenOk = (s, false) ∧
      p ∈ (connectPort s p extOpenOk).1.activeConnections ∧
      (connectPort s p extOpenOk).1.dataBuffer = s.dataBuffer ∧
      (connectPort s p extOpenOk).1.readers = s.readers := by
  intro s p extOpenOk hactive hos
  have h : connectPort s p extOpenOk = (s, false) := by
    unfold connectPort
    rw [if_pos hos]
  exact ⟨h, by rw [h]; exact hactive, by rw [h], by rw [h]⟩

theorem C7_connect_already_open_fails_witness :
    connectPort (RegistryState.mk {5} (fun q => if q = 5 then some [1, 2] else none) {5} {5}) 5 true =
      (RegistryState.mk {5} (fun q => if q = 5 then some [1, 2] else none) {5} {5}, false) :=
  (C7_connect_already_open_fails
    (RegistryState.mk {5} (fun q => if q = 5 then some [1, 2] else none) {5} {5}) 5 true
    (by decide) (by decide)).1

/-! ## Rate estimator theorems -/

/-- Claim C8: when the elapsed time since the last tick is positive, the
estimator returns `bytesSinceLastTick / elapsedSeconds` and resets the
byte counter to 0 and the timestamp to `now`; 1000 bytes over a 2-second
tick report 500 bytes/sec; when the elapsed time is 0 the previously
computed rate is returned and counter and timestamp are left unchanged
(no division is performed). -/
theorem C8_calculateDataRate :
    (∀ (s : RateState) (now : ℚ), s.lastUpdateTime < now →
        calculateDataRate s now =
          ({ dataRate := s.totalData / ((now - s.lastUpdateTime) / 1000),
             totalData := 0,
             lastUpdateTime := now },
           s.totalData / ((now - s.lastUpdateTime) / 1000))) ∧
    calculateDataRate (RateState.mk 0 1000 0) 2000 =
      (RateState.mk 500 0 2000, 500) ∧
    (∀ (s : RateState) (now : ℚ), now - s.lastUpdateTime = 0 →
        calculateDataRate s now = (s, s.dataRate)) := by
  refine ⟨?_, ?_, ?_⟩
  · intro s now h
    unfold calculateDataRate
    rw [if_pos (div_pos (sub_pos.mpr h) (by norm_num))]
  · norm_num [calculateDataRate]
  · intro s now h
    unfold calculateDataRate
    rw [h]
    norm_num

theorem C8_calculateDataRate_witness :
    calculateDataRate (RateState.mk 7 300 1000) 4000 =
      (RateState.mk 100 0 4000, 100) ∧
    calculateDataRate (RateState.mk 42 300 1000) 1000 =
      (RateState.mk 42 300 1000, 42) := by
  constructor
  · have h := C8_calculateDataRate.1 (RateState.mk 7 300 1000) 4000 (by norm_num)
    rw [h]
    norm_num
  · exact C8_calculateDataRate.2.2 (RateState.mk 42 300 1000) 1000 (by norm_num)

/-! ## Stats aggregator theorems -/

/-- Claim C9: `updateStats` displays the size of the active-connection set
and, whenever `activeConnections + errorCount > 0`, an error-rate
percentage equal to `100 * (errorCount / (activeConnections + errorCount))`;
e.g. 3 active connections and 1 error display 25 percent. -/
theorem C9_updateStats_error_rate :
    (∀ s : StatsState, 0 < s.activeConnections.card + s.errorCount →
        (updateStats s).1 = s.activeConnections.card ∧
        (updateStats s).2 =
          100 * ((s.errorCount : ℚ) /
            ((s.activeConnections.card : ℚ) + (s.errorCount : ℚ)))) ∧
    updateStats (StatsState.mk {1, 2, 3} 1) = (3, 25) := by
  constructor
  · intro s h
    refine ⟨rfl, ?_⟩
    unfold updateStats
    rw [if_pos h]
    push_cast
    ring
  · have hcard : ({1, 2, 3} : Finset Nat).card = 3 := by decide
    unfold updateStats
    simp only [hcard]
    norm_num

theorem C9_updateStats_error_rate_witness :
    (updateStats (StatsState.mk ∅ 2)).1 = 0 ∧
    (updateStats (StatsState.mk ∅ 2)).2 = 100 := by
  have h := C9_updateStats_error_rate.1 (StatsState.mk ∅ 2) (by decide)
  refine ⟨?_, ?_⟩
  · rw [h.1]
    rfl
  · rw [h.2]
    norm_num

/-- Claim C10: with zero active connections and zero errors the stats
computation performs no division (the guard takes the `0` branch) and
reports an error rate of `0`. -/
theorem C10_updateStats_zero_guard :
    ∀ s : StatsState,
      s.activeConnections.card = 0 → s.errorCount = 0 →
      updateStats s = (0, 0) := by
  intro s h1 h2
  unfold updateStats
  rw [h1, h2]
  norm_num

theorem C10_updateStats_zero_guard_witness :
    updateStats (StatsState.mk ∅ 0) = (0, 0) :=
  C10_updateStats_zero_guard (StatsState.mk ∅ 0) (by decide) rfl

end WebUart
